import Mathlib

/-!
Shallow embedding of `dagster/_utils/backcompat.py`: the parameter
compatibility resolver (`normalize_renamed_param`), the diagnostic channel
(`deprecation_warning`, `experimental_warning`, `EXPERIMENTAL_WARNING_HELP`,
the `ExperimentalWarning` category) and the experimental-warning suppression
decorator (`quiet_experimental_warnings` with its inner
`suppress_experimental_warnings` context manager).

Conventions of the embedding:
- Python's process-wide `warnings` module state is passed explicitly as a
  `WState` (the list of active filters plus the list of observably emitted
  warnings).  Every embedded Python function takes the state and returns the
  possibly-updated state together with an `Except` result (`.error` models a
  raised Python exception).
- Python values relevant to the resolver are modelled by the dynamic type
  `PyObj`; Python's `None` is `PyObj.none`, and callables are identified by
  an index into an explicit application environment `app : Nat → PyObj → PyObj`.
- The `dagster._check` helpers (`str_param`, `opt_callable_param`, `failed`)
  and the `apply_context_manager_decorator` collaborator are not part of the
  given source tree; they are modelled from the spec where so marked.
-/

-- ########################
-- ##### WARNINGS CHANNEL STATE
-- ########################

/-- Warning categories used by the module: Python's built-in
`DeprecationWarning`, the library-defined `ExperimentalWarning`
(class `ExperimentalWarning(Warning)` in the source), and a stand-in for any
other category in the process. -/
inductive WarningCategory where
  | deprecation
  | experimental
  | user
deriving DecidableEq, Repr

/-- Action of a warnings filter, as in Python's `warnings` module:
`ignore` drops matching warnings, `error` escalates them to an exception,
`always` shows them. -/
inductive FilterAction where
  | ignore
  | error
  | always
deriving DecidableEq, Repr

/-- One entry of the process-wide warnings filter list: an action applied to
matching categories. -/
structure WFilter where
  action : FilterAction
  category : WarningCategory
deriving DecidableEq, Repr

/-- An observably emitted warning: message, category and the stacklevel the
emitter requested. -/
structure WarningEvent where
  message : String
  category : WarningCategory
  stacklevel : Nat
deriving DecidableEq, Repr

/-- The process-wide state of Python's `warnings` module: the active filter
list (front entries take precedence, as `warnings.filterwarnings` inserts at
the front) and the warnings observably emitted so far. -/
structure WState where
  filters : List WFilter
  emitted : List WarningEvent
deriving DecidableEq, Repr

/-- Errors raised by the embedded code: a `CheckError` from `dagster._check`,
a warning escalated to an exception by an `error` filter, or any other
exception raised by wrapped user code. -/
inductive PyErr where
  | checkError (msg : String)
  | raisedWarning (msg : String) (cat : WarningCategory)
  | userError
deriving DecidableEq, Repr

/-- First filter of the list matching the given category, mirroring how
Python's `warnings` module scans its filter list front to back. -/
def firstMatching : List WFilter → WarningCategory → Option WFilter
  | [], _ => Option.none
  | f :: fs, cat => if f.category == cat then some f else firstMatching fs cat

/-- Python's `warnings.warn(message, category, stacklevel)`: the first
matching filter decides whether the warning is dropped (`ignore`), raised as
an exception (`error`), or emitted; with no matching filter it is emitted. -/
def warningsWarn (msg : String) (cat : WarningCategory) (stacklevel : Nat)
    (s : WState) : Except PyErr Unit × WState :=
  match firstMatching s.filters cat with
  | some f =>
    match f.action with
    | .ignore => (.ok (), s)
    | .error => (.error (.raisedWarning msg cat), s)
    | .always => (.ok (), { s with emitted := s.emitted ++ [⟨msg, cat, stacklevel⟩] })
  | Option.none => (.ok (), { s with emitted := s.emitted ++ [⟨msg, cat, stacklevel⟩] })

/-- Whether the filter state escalates the given category to an exception
(the underlying channel's policy, not the emitting component's). -/
def escalates (fs : List WFilter) (cat : WarningCategory) : Bool :=
  match firstMatching fs cat with
  | some f => f.action == .error
  | Option.none => false

/-- Whether the filter state silently drops `ExperimentalWarning`
diagnostics: the first matching filter exists and says `ignore`. -/
def suppressesExperimental (fs : List WFilter) : Bool :=
  match firstMatching fs .experimental with
  | some f => f.action == .ignore
  | Option.none => false

/-- The `ExperimentalWarning`-category events of an emission log. -/
def experimentalEvents (l : List WarningEvent) : List WarningEvent :=
  l.filter (fun e => e.category == .experimental)

-- ########################
-- ##### DYNAMIC PYTHON VALUES AND dagster._check
-- ########################

/-- Dynamic Python values as seen by `normalize_renamed_param`: `None`,
strings, ints, bools, and callables (named by an index into an application
environment). -/
inductive PyObj where
  | none
  | str (s : String)
  | int (n : Int)
  | bool (b : Bool)
  | callable (fid : Nat)
deriving DecidableEq, Repr

/-- String payload of a `PyObj` known to be a `str` (used after
`check.str_param` has validated it). -/
def strVal : PyObj → String
  | .str s => s
  | _ => ""

/-- Whether a `PyObj` is a Python `str` (any string, the empty one
included). -/
def isStr : PyObj → Bool
  | .str _ => true
  | _ => false

/-- Whether a `PyObj` is acceptable as an optional callable parameter:
`None` or a callable. -/
def isOptCallable : PyObj → Bool
  | .none => true
  | .callable _ => true
  | _ => false

namespace check

/-- Modelled from the spec: `dagster._check.str_param` is the validation
collaborator (not under the given source tree); it returns its argument when
it is a `str` and raises a `CheckError` otherwise. -/
def str_param (v : PyObj) (name : String) : Except PyErr PyObj :=
  if isStr v then .ok v
  else .error (.checkError ("Param \"" ++ name ++ "\" is not a str."))

/-- Modelled from the spec: `dagster._check.opt_callable_param` (not under
the given source tree) returns its argument when it is `None` or callable and
raises a `CheckError` otherwise. -/
def opt_callable_param (v : PyObj) (name : String) : Except PyErr PyObj :=
  if isOptCallable v then .ok v
  else .error (.checkError ("Param \"" ++ name ++ "\" is not callable."))

/-- Modelled from the spec: `dagster._check.failed` (not under the given
source tree) unconditionally raises a `CheckError` carrying the supplied
message — the resolver's ConflictError failure mode. -/
def failed (desc : String) : Except PyErr PyObj :=
  .error (.checkError desc)

end check

-- ########################
-- ##### DEPRECATED
-- ########################

/-- Embedding of `normalize_renamed_param(new_val, new_arg, old_val, old_arg,
coerce_old_to_new=None)`.  Callables are applied through the environment
`app`.  The warnings state is threaded and, as in the source (which never
touches the `warnings` module), returned untouched: this path emits no
diagnostic. -/
def normalize_renamed_param (app : Nat → PyObj → PyObj)
    (new_val new_arg old_val old_arg : PyObj)
    (coerce_old_to_new : PyObj := PyObj.none) (s : WState) :
    Except PyErr PyObj × WState :=
  match check.str_param new_arg "new_arg" with
  | .error e => (.error e, s)
  | .ok _ =>
  match check.str_param old_arg "old_arg" with
  | .error e => (.error e, s)
  | .ok _ =>
  match check.opt_callable_param coerce_old_to_new "coerce_old_to_new" with
  | .error e => (.error e, s)
  | .ok _ =>
  if new_val != PyObj.none && old_val != PyObj.none then
    (check.failed ("Do not use deprecated \"" ++ strVal old_arg
      ++ "\" now that you are using \"" ++ strVal new_arg ++ "\"."), s)
  else if old_val != PyObj.none then
    match coerce_old_to_new with
    | .callable fid => (.ok (app fid old_val), s)
    | _ => (.ok old_val, s)
  else
    (.ok new_val, s)

/-- Message built by `deprecation_warning`; the `additional_warn_text` branch
follows Python truthiness (`if additional_warn_text`), so `None` and the
empty string both append nothing. -/
def deprecation_message (subject breaking_version : String)
    (additional_warn_text : Option String) : String :=
  subject ++ " is deprecated and will be removed in " ++ breaking_version ++ "."
    ++ (match additional_warn_text with
        | some t => if t = "" then "" else " " ++ t
        | Option.none => "")

/-- Embedding of `deprecation_warning(subject, breaking_version,
additional_warn_text=None, stacklevel=3)`: a single `warnings.warn` call with
category `DeprecationWarning`. -/
def deprecation_warning (subject breaking_version : String)
    (additional_warn_text : Option String := Option.none)
    (stacklevel : Nat := 3) (s : WState) : Except PyErr Unit × WState :=
  warningsWarn (deprecation_message subject breaking_version additional_warn_text)
    .deprecation stacklevel s

-- ########################
-- ##### EXPERIMENTAL
-- ########################

/-- Embedding of the module-level constant `EXPERIMENTAL_WARNING_HELP`. -/
def EXPERIMENTAL_WARNING_HELP : String :=
  "To mute warnings for experimental functionality, invoke"
    ++ " warnings.filterwarnings(\"ignore\", category=dagster.ExperimentalWarning) or use"
    ++ " one of the other methods described at"
    ++ " https://docs.python.org/3/library/warnings.html#describing-warning-filters."

/-- Message built by `experimental_warning`; `extra_text` follows Python
truthiness of `additional_warn_text`, and the fixed help text is appended
after a space. -/
def experimental_message (subject : String)
    (additional_warn_text : Option String) : String :=
  let extra_text := match additional_warn_text with
    | some t => if t = "" then "" else " " ++ t
    | Option.none => ""
  subject ++ " is experimental. It may break in future versions, even between dot releases."
    ++ extra_text ++ " " ++ EXPERIMENTAL_WARNING_HELP

/-- Embedding of `experimental_warning(subject, additional_warn_text=None,
stacklevel=3)`: a single `warnings.warn` call with the library-defined
category `ExperimentalWarning`. -/
def experimental_warning (subject : String)
    (additional_warn_text : Option String := Option.none)
    (stacklevel : Nat := 3) (s : WState) : Except PyErr Unit × WState :=
  warningsWarn (experimental_message subject additional_warn_text)
    .experimental stacklevel s

-- ########################
-- ##### QUIET EXPERIMENTAL WARNINGS
-- ########################

/-- Entry of the `suppress_experimental_warnings` context manager:
`warnings.catch_warnings()` will restore the saved filters on exit, and
`warnings.filterwarnings("ignore", category=ExperimentalWarning)` inserts an
ignore filter at the front of the filter list. -/
def quietEntry (s : WState) : WState :=
  { s with filters := ⟨.ignore, .experimental⟩ :: s.filters }

/-- Programs over the warnings channel, used to quantify over the dynamic
extent of wrapped calls: emit a diagnostic, raise, sequence, or invoke a
callable wrapped by `quiet_experimental_warnings`. -/
inductive Prog where
  | nop
  | warnExperimental (subject : String)
  | warnDeprecation (subject breaking_version : String)
  | raiseExc
  | seq (p q : Prog)
  | quiet (p : Prog)
deriving DecidableEq, Repr

/-- Semantics of `Prog`.  The `quiet p` case embeds a call to a function
decorated by `quiet_experimental_warnings`: modelled from the spec, the
external collaborator `apply_context_manager_decorator` runs the call `p`
inside the `suppress_experimental_warnings` context manager, which saves the
filter list (`catch_warnings`), pushes the ignore filter on entry, and
restores the saved list on every exit path, normal or raising. -/
def run : Prog → WState → Except PyErr Unit × WState
  | .nop, s => (.ok (), s)
  | .warnExperimental subject, s => experimental_warning subject Option.none 3 s
  | .warnDeprecation subject bv, s => deprecation_warning subject bv Option.none 3 s
  | .raiseExc, s => (.error .userError, s)
  | .seq p q, s =>
    match run p s with
    | (.ok _, s1) => run q s1
    | (.error e, s1) => (.error e, s1)
  | .quiet p, s =>
    let saved := s.filters
    let r := run p (quietEntry s)
    (r.1, { r.2 with filters := saved })

-- ########################
-- ##### HELPER LEMMAS
-- ########################

/-- Emitting a warning never changes the filter list, whatever the matching
filter's action. -/
theorem warningsWarn_filters (msg : String) (cat : WarningCategory) (lvl : Nat)
    (s : WState) : (warningsWarn msg cat lvl s).2.filters = s.filters := by
  unfold warningsWarn
  cases h : firstMatching s.filters cat with
  | none => simp
  | some f =>
    obtain ⟨a, c⟩ := f
    cases a <;> simp

/-- Any program leaves the filter list as it found it: warns do not touch it
and every suppression scope restores the list saved on entry, on normal and
on raising exits alike. -/
theorem run_filters (p : Prog) (s : WState) : (run p s).2.filters = s.filters := by
  induction p generalizing s with
  | nop => rfl
  | warnExperimental subject =>
    simpa only [run, experimental_warning] using warningsWarn_filters _ _ _ s
  | warnDeprecation subject bv =>
    simpa only [run, deprecation_warning] using warningsWarn_filters _ _ _ s
  | raiseExc => rfl
  | seq p q ihp ihq =>
    simp only [run]
    have hp := ihp s
    cases hrun : run p s with
    | mk r s1 =>
      rw [hrun] at hp
      cases r with
      | ok u => simpa using (ihq s1).trans hp
      | error e => simpa using hp
  | quiet p ih => simp [run]

/-- Entering a suppression scope puts the ignore filter for
`ExperimentalWarning` at the front of the filter list, so the resulting state
drops experimental diagnostics. -/
theorem suppressesExperimental_quietEntry (s : WState) :
    suppressesExperimental (quietEntry s).filters = true := by rfl

/-- In a state whose filters drop `ExperimentalWarning`, no program adds an
`ExperimentalWarning` event to the emission log. -/
theorem run_emitted_of_suppressed (p : Prog) (s : WState)
    (h : suppressesExperimental s.filters = true) :
    experimentalEvents (run p s).2.emitted = experimentalEvents s.emitted := by
  induction p generalizing s with
  | nop => rfl
  | warnExperimental subject =>
    simp only [run, experimental_warning, warningsWarn]
    unfold suppressesExperimental at h
    cases hm : firstMatching s.filters .experimental with
    | none => rw [hm] at h; simp at h
    | some f =>
      rw [hm] at h
      obtain ⟨a, c⟩ := f
      cases a with
      | ignore => simp
      | error => simp at h
      | always => simp at h
  | warnDeprecation subject bv =>
    simp only [run, deprecation_warning, warningsWarn]
    cases hm : firstMatching s.filters .deprecation with
    | none => simp [experimentalEvents, List.filter_append]
    | some f =>
      obtain ⟨a, c⟩ := f
      cases a <;> simp [experimentalEvents, List.filter_append]
  | raiseExc => rfl
  | seq p q ihp ihq =>
    simp only [run]
    have hfil := run_filters p s
    have hp := ihp s h
    cases hrun : run p s with
    | mk r s1 =>
      rw [hrun] at hp hfil
      cases r with
      | ok u =>
        have hs1 : suppressesExperimental s1.filters = true := by rw [hfil]; exact h
        simpa using (ihq s1 hs1).trans hp
      | error e => simpa using hp
  | quiet p ih =>
    simp only [run]
    exact ih (quietEntry s) (suppressesExperimental_quietEntry s)

/-- With `old_val` absent and a valid optional coercion argument, the
resolver returns `new_val` and leaves the warnings state untouched. -/
theorem normalize_old_absent (app : Nat → PyObj → PyObj) (new_val coerce : PyObj)
    (na oa : String) (s : WState) (h : isOptCallable coerce = true) :
    normalize_renamed_param app new_val (.str na) PyObj.none (.str oa) coerce s
      = (.ok new_val, s) := by
  simp [normalize_renamed_param, check.str_param, check.opt_callable_param, isStr, h]

-- ########################
-- ##### CLAIM THEOREMS
-- ########################

/-- C1: whenever both `new_val` and `old_val` are present (not `None`) and
the call is otherwise well-formed (string argument names, valid optional
coercion), `normalize_renamed_param` fails immediately with the check failure
(ConflictError) whose message names both `old_arg` and `new_arg` and
instructs the caller to use only the new one; no value is returned and the
warnings state is untouched. -/
theorem C1_conflict_raises_check_error (app : Nat → PyObj → PyObj)
    (new_val old_val coerce : PyObj) (na oa : String) (s : WState)
    (h1 : new_val ≠ PyObj.none) (h2 : old_val ≠ PyObj.none)
    (h3 : isOptCallable coerce = true) :
    normalize_renamed_param app new_val (.str na) old_val (.str oa) coerce s
      = (.error (.checkError ("Do not use deprecated \"" ++ oa
          ++ "\" now that you are using \"" ++ na ++ "\".")), s) := by
  simp [normalize_renamed_param, check.str_param, check.opt_callable_param, check.failed,
    isStr, h3, strVal, bne_iff_ne, h1, h2]

/-- Witness for C1 at a concrete conflicting call. -/
theorem C1_conflict_raises_check_error_witness :
    (PyObj.int 1) ≠ PyObj.none ∧ (PyObj.int 2) ≠ PyObj.none
    ∧ isOptCallable PyObj.none = true
    ∧ normalize_renamed_param (fun _ v => v) (.int 1) (.str "new_flag") (.int 2)
        (.str "old_flag") PyObj.none ⟨[], []⟩
      = (.error (.checkError
          "Do not use deprecated \"old_flag\" now that you are using \"new_flag\"."),
         ⟨[], []⟩) :=
  ⟨by decide, by decide, rfl,
   C1_conflict_raises_check_error (fun _ v => v) (.int 1) (.int 2) PyObj.none
     "new_flag" "old_flag" ⟨[], []⟩ (by decide) (by decide) rfl⟩

/-- C2: a call wrapped by `quiet_experimental_warnings` that exits by raising
leaves the process-wide filter list exactly as it was before the call: the
suppression filter pushed on entry is released and the prior configuration is
restored unchanged. -/
theorem C2_filters_restored_after_raise (p : Prog) (s : WState) (e : PyErr)
    (h : (run (.quiet p) s).1 = .error e) :
    (run (.quiet p) s).2.filters = s.filters := by
  simp [run]

/-- Witness for C2 on a wrapped call that raises from an empty filter
state. -/
theorem C2_filters_restored_after_raise_witness :
    (run (.quiet .raiseExc) ⟨[], []⟩).1 = Except.error PyErr.userError
    ∧ (run (.quiet .raiseExc) ⟨[], []⟩).2.filters = [] :=
  ⟨rfl, C2_filters_restored_after_raise .raiseExc ⟨[], []⟩ .userError rfl⟩

/-- C3: during the dynamic extent of any call wrapped by
`quiet_experimental_warnings` — whatever program runs inside, nested
experimental warnings included — no `ExperimentalWarning` event is added to
the emission log; the same experimental warning triggered unwrapped, with no
filter matching the category, is observably emitted. -/
theorem C3_wrapped_suppresses_unwrapped_emits :
    (∀ (p : Prog) (s : WState),
      experimentalEvents (run (.quiet p) s).2.emitted = experimentalEvents s.emitted)
    ∧ (∀ (subject : String) (s : WState),
        firstMatching s.filters .experimental = Option.none →
        (run (.warnExperimental subject) s).2.emitted
          = s.emitted ++ [⟨experimental_message subject Option.none, .experimental, 3⟩]) := by
  constructor
  · intro p s
    have := run_emitted_of_suppressed p (quietEntry s) (suppressesExperimental_quietEntry s)
    simpa [run, quietEntry] using this
  · intro subject s h
    simp [run, experimental_warning, warningsWarn, h]

/-- Witness for C3: the wrapped call emits nothing, the unwrapped one emits
the experimental event. -/
theorem C3_wrapped_suppresses_unwrapped_emits_witness :
    experimentalEvents (run (.quiet (.warnExperimental "Baz")) ⟨[], []⟩).2.emitted
      = experimentalEvents ([] : List WarningEvent)
    ∧ (run (.warnExperimental "Baz") ⟨[], []⟩).2.emitted
      = [] ++ [⟨experimental_message "Baz" Option.none, .experimental, 3⟩] :=
  ⟨C3_wrapped_suppresses_unwrapped_emits.1 (.warnExperimental "Baz") ⟨[], []⟩,
   C3_wrapped_suppresses_unwrapped_emits.2 "Baz" ⟨[], []⟩ rfl⟩

/-- C4: nested suppression scopes compose: from the state reached on entry to
an outer wrapped call, running an inner wrapped call returns the filter list
unchanged, so immediately after the inner call returns the outer suppression
of `ExperimentalWarning` is still active. -/
theorem C4_nested_suppression_composes (q : Prog) (s : WState) :
    (run (.quiet q) (quietEntry s)).2.filters = (quietEntry s).filters
    ∧ suppressesExperimental ((run (.quiet q) (quietEntry s)).2.filters) = true := by
  have h := run_filters (.quiet q) (quietEntry s)
  exact ⟨h, by rw [h]; exact suppressesExperimental_quietEntry s⟩

/-- C5: with `old_val` present and `new_val` absent, the resolver returns
`old_val` unchanged when no coercion function is supplied, and the coercion
applied to `old_val` when one is; the warnings state is untouched, so the
path emits no deprecation diagnostic. -/
theorem C5_old_val_path (app : Nat → PyObj → PyObj) (old_val : PyObj)
    (na oa : String) (s : WState) (h : old_val ≠ PyObj.none) :
    (normalize_renamed_param app PyObj.none (.str na) old_val (.str oa) PyObj.none s
        = (.ok old_val, s))
    ∧ ∀ fid : Nat,
      normalize_renamed_param app PyObj.none (.str na) old_val (.str oa) (.callable fid) s
        = (.ok (app fid old_val), s) := by
  constructor
  · simp [normalize_renamed_param, check.str_param, check.opt_callable_param,
      isStr, isOptCallable, bne_iff_ne, h]
  · intro fid
    simp [normalize_renamed_param, check.str_param, check.opt_callable_param,
      isStr, isOptCallable, bne_iff_ne, h]

/-- Witness for C5: identity without a coercion, increment through the
application environment with one. -/
theorem C5_old_val_path_witness :
    (PyObj.int 2) ≠ PyObj.none
    ∧ normalize_renamed_param (fun _ v => v) PyObj.none (.str "new_flag") (.int 2)
        (.str "old_flag") PyObj.none ⟨[], []⟩ = (.ok (.int 2), ⟨[], []⟩)
    ∧ normalize_renamed_param
        (fun _ v => match v with | .int n => .int (n + 1) | x => x)
        PyObj.none (.str "new_flag") (.int 2) (.str "old_flag") (.callable 0) ⟨[], []⟩
      = (.ok (.int 3), ⟨[], []⟩) :=
  ⟨by decide,
   (C5_old_val_path (fun _ v => v) (.int 2) "new_flag" "old_flag" ⟨[], []⟩ (by decide)).1,
   (C5_old_val_path (fun _ v => match v with | .int n => .int (n + 1) | x => x)
     (.int 2) "new_flag" "old_flag" ⟨[], []⟩ (by decide)).2 0⟩

/-- C6: with `old_val` absent, the resolver returns `new_val` verbatim — also
when `new_val` is itself `None`, meaning the caller supplied neither — for
any valid optional coercion argument, which is not applied on this path. -/
theorem C6_new_val_path (app : Nat → PyObj → PyObj) (new_val coerce : PyObj)
    (na oa : String) (s : WState) (h : isOptCallable coerce = true) :
    normalize_renamed_param app new_val (.str na) PyObj.none (.str oa) coerce s
      = (.ok new_val, s) :=
  normalize_old_absent app new_val coerce na oa s h

/-- Witness for C6 at `new_val = None` with a coercion supplied: the absent
value is returned verbatim and the coercion is not applied. -/
theorem C6_new_val_path_witness :
    isOptCallable (PyObj.callable 0) = true
    ∧ normalize_renamed_param (fun _ v => v) PyObj.none (.str "new_flag") PyObj.none
        (.str "old_flag") (.callable 0) ⟨[], []⟩ = (.ok PyObj.none, ⟨[], []⟩) :=
  ⟨rfl, C6_new_val_path (fun _ v => v) PyObj.none (.callable 0)
    "new_flag" "old_flag" ⟨[], []⟩ rfl⟩

/-- C7 counterexample: the claim's appended form fails for a supplied-but-empty
`additional_warn_text`: Python truthiness drops the empty string, so the
emitted message is the bare sentence, not the sentence followed by a space
and the (empty) additional text. -/
theorem C7_counterexample :
    (deprecation_warning "Foo" "2.0" (some "") 3 ⟨[], []⟩).2.emitted
      = [⟨"Foo is deprecated and will be removed in 2.0.", .deprecation, 3⟩]
    ∧ "Foo is deprecated and will be removed in 2.0."
      ≠ "Foo is deprecated and will be removed in 2.0." ++ " " ++ "" :=
  ⟨rfl, by decide⟩

/-- C7 (amended): for every subject and breaking_version, `deprecation_warning`
emits a `DeprecationWarning` diagnostic whose message equals
"{subject} is deprecated and will be removed in {breaking_version}.", and when
a non-empty `additional_warn_text` is supplied the message is that sentence
followed by a space and the additional text. -/
theorem C7_deprecation_message_amended (subject bv : String) (lvl : Nat)
    (s : WState) (h : firstMatching s.filters .deprecation = Option.none) :
    ((deprecation_warning subject bv Option.none lvl s).1 = .ok ()
      ∧ (deprecation_warning subject bv Option.none lvl s).2.emitted
        = s.emitted
          ++ [⟨subject ++ " is deprecated and will be removed in " ++ bv ++ ".",
               .deprecation, lvl⟩])
    ∧ ∀ t : String, t ≠ "" →
      (deprecation_warning subject bv (some t) lvl s).1 = .ok ()
      ∧ (deprecation_warning subject bv (some t) lvl s).2.emitted
        = s.emitted
          ++ [⟨subject ++ " is deprecated and will be removed in " ++ bv ++ "." ++ " " ++ t,
               .deprecation, lvl⟩] := by
  refine ⟨⟨?_, ?_⟩, ?_⟩
  · simp [deprecation_warning, warningsWarn, h]
  · simp [deprecation_warning, warningsWarn, h, deprecation_message, String.append_empty]
  · intro t ht
    refine ⟨?_, ?_⟩
    · simp [deprecation_warning, warningsWarn, h]
    · have hlit : ("." : String) ++ (" " ++ t) = ". " ++ t := by
        rw [← String.append_assoc, show ("." ++ " " : String) = ". " from rfl]
      simp [deprecation_warning, warningsWarn, h, deprecation_message, ht,
        String.append_assoc, hlit]

/-- Witness for C7 (amended) at the spec's examples. -/
theorem C7_deprecation_message_amended_witness :
    (deprecation_warning "Foo" "2.0" Option.none 3 ⟨[], []⟩).2.emitted
      = [⟨"Foo is deprecated and will be removed in 2.0.", .deprecation, 3⟩]
    ∧ (deprecation_warning "Foo" "2.0" (some "Use Bar.") 3 ⟨[], []⟩).2.emitted
      = [⟨"Foo is deprecated and will be removed in 2.0. Use Bar.", .deprecation, 3⟩] :=
  ⟨((C7_deprecation_message_amended "Foo" "2.0" 3 ⟨[], []⟩ rfl).1).2,
   ((C7_deprecation_message_amended "Foo" "2.0" 3 ⟨[], []⟩ rfl).2 "Use Bar." (by decide)).2⟩

/-- C8: `experimental_warning` emits an `ExperimentalWarning` diagnostic whose
message starts with "{subject} is experimental. It may break in future
versions, even between dot releases." — with additional text, when present,
appended after a space — and carries the fixed `EXPERIMENTAL_WARNING_HELP`
mute-instructions suffix. -/
theorem C8_experimental_message_shape (subject : String) (a : Option String)
    (lvl : Nat) (s : WState)
    (h : firstMatching s.filters .experimental = Option.none) :
    ((experimental_warning subject a lvl s).2.emitted
      = s.emitted ++ [⟨experimental_message subject a, .experimental, lvl⟩])
    ∧ (∃ rest, experimental_message subject a
        = (subject ++ " is experimental. It may break in future versions, even between dot releases.")
          ++ rest)
    ∧ (∀ t, a = some t → ∃ rest, experimental_message subject a
        = (subject ++ " is experimental. It may break in future versions, even between dot releases."
            ++ " " ++ t) ++ rest)
    ∧ (∃ front, experimental_message subject a = front ++ EXPERIMENTAL_WARNING_HELP) := by
  have hm : ∀ x : String,
      (" is experimental. It may break in future versions, even between dot releases." : String)
        ++ (" " ++ x)
      = " is experimental. It may break in future versions, even between dot releases. " ++ x := by
    intro x
    rw [← String.append_assoc,
      show (" is experimental. It may break in future versions, even between dot releases."
          ++ " " : String)
        = " is experimental. It may break in future versions, even between dot releases. " from rfl]
  refine ⟨?_, ?_, ?_, ?_⟩
  · simp [experimental_warning, warningsWarn, h]
  · cases a with
    | none =>
      exact ⟨" " ++ EXPERIMENTAL_WARNING_HELP,
        by simp [experimental_message, String.append_empty, String.append_assoc, hm]⟩
    | some t =>
      by_cases ht : t = ""
      · subst ht
        exact ⟨" " ++ EXPERIMENTAL_WARNING_HELP,
          by simp [experimental_message, String.append_empty, String.append_assoc, hm]⟩
      · exact ⟨" " ++ t ++ (" " ++ EXPERIMENTAL_WARNING_HELP),
          by simp [experimental_message, ht, String.append_assoc, hm]⟩
  · intro t hat
    subst hat
    by_cases ht : t = ""
    · subst ht
      exact ⟨EXPERIMENTAL_WARNING_HELP,
        by simp [experimental_message, String.append_empty, String.append_assoc, hm]⟩
    · exact ⟨" " ++ EXPERIMENTAL_WARNING_HELP,
        by simp [experimental_message, ht, String.append_assoc, hm]⟩
  · cases a with
    | none =>
      exact ⟨subject
          ++ " is experimental. It may break in future versions, even between dot releases. ",
        by simp [experimental_message, String.append_empty, String.append_assoc, hm]⟩
    | some t =>
      by_cases ht : t = ""
      · subst ht
        exact ⟨subject
            ++ " is experimental. It may break in future versions, even between dot releases. ",
          by simp [experimental_message, String.append_empty, String.append_assoc, hm]⟩
      · exact ⟨subject
            ++ " is experimental. It may break in future versions, even between dot releases. "
            ++ t ++ " ",
          by simp [experimental_message, ht, String.append_assoc, hm]⟩

/-- Witness for C8 at the spec's example subject. -/
theorem C8_experimental_message_shape_witness :
    (experimental_warning "Baz" Option.none 3 ⟨[], []⟩).2.emitted
      = [⟨experimental_message "Baz" Option.none, .experimental, 3⟩]
    ∧ (∃ rest, experimental_message "Baz" Option.none
        = ("Baz" ++ " is experimental. It may break in future versions, even between dot releases.")
          ++ rest)
    ∧ (∃ front, experimental_message "Baz" Option.none
        = front ++ EXPERIMENTAL_WARNING_HELP) :=
  ⟨(C8_experimental_message_shape "Baz" Option.none 3 ⟨[], []⟩ rfl).1,
   (C8_experimental_message_shape "Baz" Option.none 3 ⟨[], []⟩ rfl).2.1,
   (C8_experimental_message_shape "Baz" Option.none 3 ⟨[], []⟩ rfl).2.2.2⟩

/-- C9: `deprecation_warning` and `experimental_warning` never raise of their
own accord: whenever the channel's filter policy does not escalate the
category, the call returns successfully, and any raising outcome can only be
the channel's escalation policy. -/
theorem C9_warnings_never_raise (subject bv : String) (a : Option String)
    (lvl : Nat) (s : WState) :
    (escalates s.filters .deprecation = false →
      (deprecation_warning subject bv a lvl s).1 = .ok ())
    ∧ (escalates s.filters .experimental = false →
      (experimental_warning subject a lvl s).1 = .ok ())
    ∧ (∀ e, (deprecation_warning subject bv a lvl s).1 = .error e →
        escalates s.filters .deprecation = true)
    ∧ (∀ e, (experimental_warning subject a lvl s).1 = .error e →
        escalates s.filters .experimental = true) := by
  refine ⟨?_, ?_, ?_, ?_⟩ <;>
    simp only [deprecation_warning, experimental_warning, warningsWarn, escalates]
  · cases hm : firstMatching s.filters .deprecation with
    | none => simp
    | some f => obtain ⟨ac, c⟩ := f; cases ac <;> simp
  · cases hm : firstMatching s.filters .experimental with
    | none => simp
    | some f => obtain ⟨ac, c⟩ := f; cases ac <;> simp
  · cases hm : firstMatching s.filters .deprecation with
    | none => simp
    | some f => obtain ⟨ac, c⟩ := f; cases ac <;> simp
  · cases hm : firstMatching s.filters .experimental with
    | none => simp
    | some f => obtain ⟨ac, c⟩ := f; cases ac <;> simp

/-- Witness for C9 in the default (empty) filter state, where nothing
escalates and both emissions succeed. -/
theorem C9_warnings_never_raise_witness :
    escalates ([] : List WFilter) .deprecation = false
    ∧ (deprecation_warning "Foo" "2.0" Option.none 3 ⟨[], []⟩).1 = .ok ()
    ∧ escalates ([] : List WFilter) .experimental = false
    ∧ (experimental_warning "Baz" Option.none 3 ⟨[], []⟩).1 = .ok () :=
  ⟨rfl,
   (C9_warnings_never_raise "Foo" "2.0" Option.none 3 ⟨[], []⟩).1 rfl,
   rfl,
   (C9_warnings_never_raise "Baz" "2.0" Option.none 3 ⟨[], []⟩).2.1 rfl⟩

/-- C10: `normalize_renamed_param` validates its name and coercion parameters
before resolving values: if `new_arg` or `old_arg` is not a string, or the
coercion argument is neither absent nor callable, the call fails with a check
failure for all `new_val` and `old_val`; an empty string is nonetheless
accepted as an argument name. -/
theorem C10_validation_before_resolution (app : Nat → PyObj → PyObj)
    (new_val old_val new_arg old_arg coerce : PyObj) (s : WState) :
    ((isStr new_arg = false ∨ isStr old_arg = false ∨ isOptCallable coerce = false) →
      ∃ msg, normalize_renamed_param app new_val new_arg old_val old_arg coerce s
        = (.error (.checkError msg), s))
    ∧ (normalize_renamed_param app new_val (.str "") PyObj.none (.str "") PyObj.none s
        = (.ok new_val, s)) := by
  constructor
  · intro h
    cases hn : isStr new_arg with
    | false =>
      exact ⟨"Param \"new_arg\" is not a str.",
        by simp [normalize_renamed_param, check.str_param, hn]⟩
    | true =>
      cases ho : isStr old_arg with
      | false =>
        exact ⟨"Param \"old_arg\" is not a str.",
          by simp [normalize_renamed_param, check.str_param, hn, ho]⟩
      | true =>
        have hc : isOptCallable coerce = false := by
          rcases h with h | h | h
          · rw [hn] at h; exact absurd h (by simp)
          · rw [ho] at h; exact absurd h (by simp)
          · exact h
        exact ⟨"Param \"coerce_old_to_new\" is not callable.",
          by simp [normalize_renamed_param, check.str_param, check.opt_callable_param,
            hn, ho, hc]⟩
  · exact normalize_old_absent app new_val PyObj.none "" "" s rfl

/-- Witness for C10: a non-string `new_arg` fails validation even without an
old/new conflict, and empty-string names are accepted. -/
theorem C10_validation_before_resolution_witness :
    (isStr (PyObj.int 5) = false ∨ isStr (PyObj.str "o") = false
      ∨ isOptCallable PyObj.none = false)
    ∧ (∃ msg, normalize_renamed_param (fun _ v => v) (.int 1) (.int 5) PyObj.none
        (.str "o") PyObj.none ⟨[], []⟩ = (.error (.checkError msg), ⟨[], []⟩))
    ∧ normalize_renamed_param (fun _ v => v) (.int 1) (.str "") PyObj.none (.str "")
        PyObj.none ⟨[], []⟩ = (.ok (.int 1), ⟨[], []⟩) :=
  ⟨Or.inl rfl,
   (C10_validation_before_resolution (fun _ v => v) (.int 1) PyObj.none (.int 5)
     (.str "o") PyObj.none ⟨[], []⟩).1 (Or.inl rfl),
   (C10_validation_before_resolution (fun _ v => v) (.int 1) PyObj.none (.int 5)
     (.str "o") PyObj.none ⟨[], []⟩).2⟩
